import Mathlib

/-!
Verification of the nnstreamer datareposrc element
(src/gst/datarepo/gstdatareposrc.c) against its natural-language
specification.

The element state (struct GstDataRepoSrc), the per-call read functions
(gst_data_repo_src_read_tensors / _read_multi_images / _read_others),
the lifecycle functions (start / stop / set_location), and the tensor
sizing (gst_data_repo_src_get_tensors_size) are embedded shallowly.
The backing regular file is modelled by its byte length: a read of n
bytes at offset off returns min n (fileLen - off) bytes, which is the
behaviour of read(2) on a regular file (EAGAIN/EINTR retries in the C
loop are invisible; read(2) on a regular file is not modelled as
failing, so the could_not_read path never triggers).  The filesystem
seen by open/stat/g_file_get_contents is a map from paths to what the
path holds.
-/

namespace DataRepoSrc

/-- Media types the element dispatches on in gst_data_repo_src_create
(the subset of the nnstreamer media-type enum that datareposrc uses). -/
inductive NnsMediaType
  | tensor
  | video
  | audio
  | text
  | octet
  | image
  deriving DecidableEq, Repr

/-- One GstMemory chunk appended to an output GstBuffer: alloc is the
size passed to gst_allocator_alloc, valid the number of bytes the read
loop actually wrote into it before it was appended. -/
structure Segment where
  alloc : Nat
  valid : Nat
  deriving DecidableEq, Repr

/-- Result of one create call: GST_FLOW_OK carrying the produced buffer
(as its list of memory segments), GST_FLOW_ERROR, or GST_FLOW_EOS. -/
inductive GstFlowReturn
  | ok (buf : List Segment)
  | error
  | eos
  deriving DecidableEq, Repr

/-- What the filesystem holds at a path: a regular file of a given byte
size, a directory, a socket, or some other non-regular object. -/
inductive FileKind
  | regular (size : Nat)
  | directory
  | socket
  | other
  deriving DecidableEq, Repr

/-- The filesystem as seen by g_open / fstat / g_file_get_contents:
none means the path cannot be opened (e.g. ENOENT). -/
def World : Type := String → Option FileKind

/-- The empty string (an unset location is also rejected when present but
empty, src->filename[0] == 0). -/
def emptyStr : String := ""

/-- GStreamer element states, as tested by gst_data_repo_src_set_location. -/
inductive GstState
  | null
  | ready
  | paused
  | playing
  deriving DecidableEq, Repr

/-- The fields of struct GstDataRepoSrc used by the code under
verification.  GObject zero-initialises the instance, and
gst_data_repo_src_init then sets the fields it touches explicitly;
tensors_size is the guint[MAX_ITEM] array, modelled as the list of
entries written so far (unwritten entries read as 0, matching the
zero-initialised C array). -/
structure GstDataRepoSrc where
  filename : Option String
  fd : Int
  media_type : NnsMediaType
  offset : Nat
  read_position : Nat
  successful_read : Bool
  frame_index : Nat
  start_frame_index : Nat
  stop_frame_index : Nat
  media_size : Nat
  tensors_size : List Nat
  deriving DecidableEq, Repr

/-- gst_data_repo_src_init: the initial field values. -/
def gst_data_repo_src_init : GstDataRepoSrc where
  filename := none
  fd := 0
  media_type := .tensor
  offset := 0
  read_position := 0
  successful_read := false
  frame_index := 0
  start_frame_index := 0
  stop_frame_index := 0
  media_size := 0
  tensors_size := []

/-- The tensors_size[i] array read of the C code (the array is
zero-initialised, so entries beyond those written by
gst_data_repo_src_get_tensors_size read as 0). -/
def tsAt (s : GstDataRepoSrc) (i : Nat) : Nat := s.tensors_size.getD i 0

/-- Outcome of the while (to_read > 0) read-accumulation loop shared by
gst_data_repo_src_read_tensors and gst_data_repo_src_read_others:
full off = the requested count was read and the file offset advanced
to off; cut off got = read returned 0 with byte_read = got > 0, so the
loop broke out early with the offset advanced to off; eos = read
returned 0 with byte_read = 0 (the goto eos path). -/
inductive LoopExit
  | full (off : Nat)
  | cut (off : Nat) (got : Nat)
  | eos
  deriving DecidableEq, Repr

/-- The body of the while (to_read > 0) loop, with an explicit fuel
argument for structural recursion.  Each iteration that recurses reads
ret = min to_read (fileLen - off) > 0 bytes, so to_read strictly
decreases and fuel = the initial to_read is always enough; the
fuel-exhausted fallback is unreachable from readLoop (see
readLoop_full, readLoop_cut, readLoop_eos, which cover every input). -/
def readLoopAux (fileLen : Nat) : Nat → Nat → Nat → Nat → LoopExit
  | _, off, 0, _ => .full off
  | 0, off, _, _ => .full off
  | fuel + 1, off, toRead + 1, byteRead =>
      let ret := min (toRead + 1) (fileLen - off)
      if ret = 0 then
        if 0 < byteRead then .cut off byteRead else .eos
      else
        readLoopAux fileLen fuel (off + ret) (toRead + 1 - ret) (byteRead + ret)

/-- The while (to_read > 0) loop of the two byte-source read functions,
entered with to_read = toRead and byte_read = byteRead over a regular
file of fileLen bytes at file offset off. -/
def readLoop (fileLen off toRead byteRead : Nat) : LoopExit :=
  readLoopAux fileLen toRead off toRead byteRead

theorem readLoop_zero (l off b : Nat) : readLoop l off 0 b = .full off := by
  cases b <;> rfl

theorem readLoop_full (l off r : Nat) (h : off + r ≤ l) :
    readLoop l off r 0 = .full (off + r) := by
  cases r with
  | zero => simp [readLoop, readLoopAux]
  | succ n =>
      have hmin : min (n + 1) (l - off) = n + 1 := by omega
      have hne : ¬ (n + 1 = 0) := by omega
      simp only [readLoop, readLoopAux, hmin, if_neg hne, Nat.sub_self]

theorem readLoop_cut (l off r : Nat) (h1 : off < l) (h2 : l < off + r) :
    readLoop l off r 0 = .cut l (l - off) := by
  obtain ⟨n, rfl⟩ : ∃ n, r = n + 1 := ⟨r - 1, by omega⟩
  have hmin : min (n + 1) (l - off) = l - off := by omega
  have hne : ¬ (l - off = 0) := by omega
  simp only [readLoop, readLoopAux, hmin, if_neg hne]
  have e1 : off + (l - off) = l := by omega
  have e2 : 0 + (l - off) = l - off := by omega
  rw [e1, e2]
  obtain ⟨m, hm⟩ : ∃ m, n = m + 1 := ⟨n - 1, by omega⟩
  obtain ⟨k, hk⟩ : ∃ k, n + 1 - (l - off) = k + 1 := ⟨n - (l - off), by omega⟩
  rw [hk, hm]
  have hmin2 : min (k + 1) (l - l) = 0 := by omega
  simp only [readLoopAux, hmin2, if_pos rfl]
  have hb : 0 < l - off := by omega
  simp [hb]

theorem readLoop_eos (l off r : Nat) (hr : 0 < r) (h : l ≤ off) :
    readLoop l off r 0 = .eos := by
  obtain ⟨n, rfl⟩ : ∃ n, r = n + 1 := ⟨r - 1, by omega⟩
  have hmin : min (n + 1) (l - off) = 0 := by omega
  simp [readLoop, readLoopAux, hmin]

/-- The second iteration (i = 1) of the for (i = 0; i < 2; i++) loop of
gst_data_repo_src_read_tensors, entered after the first GstMemory seg0
has been filled and the file offset advanced to off0 (src->offset and
src->read_position were incremented by every read of the first
iteration).  On the goto eos path the buffer built so far is unreffed
and GST_FLOW_EOS returned, keeping the advanced offsets; otherwise the
second memory is appended (allocated at tensors_size[1], filled with
tensors_size[1] bytes when the loop completed, or byte_read bytes when
read returned 0 mid-record) and the two-memory buffer returned. -/
def readSecond (fileLen : Nat) (seg0 : Segment) (off0 : Nat)
    (s : GstDataRepoSrc) : GstFlowReturn × GstDataRepoSrc :=
  let ts1 := tsAt s 1
  let s0 : GstDataRepoSrc :=
    {s with offset := off0, read_position := s.read_position + (off0 - s.offset)}
  match readLoop fileLen off0 ts1 0 with
  | .eos => (.eos, s0)
  | .full off1 =>
      (.ok [seg0, ⟨ts1, ts1⟩],
        {s0 with offset := off1, read_position := s0.read_position + (off1 - off0)})
  | .cut off1 got1 =>
      (.ok [seg0, ⟨ts1, got1⟩],
        {s0 with offset := off1, read_position := s0.read_position + (off1 - off0)})

/-- gst_data_repo_src_read_tensors: the for (i = 0; i < 2; i++) loop
allocates tensors_size[i] bytes per iteration and runs the while
(to_read > 0) read loop into it.  When read returns 0 with byte_read =
0 the goto eos path drops the buffer and returns GST_FLOW_EOS; when it
returns 0 with byte_read > 0 the loop breaks and the partially filled
memory is appended like a full one. -/
def gst_data_repo_src_read_tensors (fileLen : Nat) (s : GstDataRepoSrc) :
    GstFlowReturn × GstDataRepoSrc :=
  let ts0 := tsAt s 0
  match readLoop fileLen s.offset ts0 0 with
  | .eos => (.eos, s)
  | .full off0 => readSecond fileLen ⟨ts0, ts0⟩ off0 s
  | .cut off0 got0 => readSecond fileLen ⟨ts0, got0⟩ off0 s

/-- Modelled from the spec: the SequentialImageNamer path substitution
performed by g_strdup_printf (src->filename, src->frame_index) in
gst_data_repo_src_get_image_filename.  The printf formatting itself is
not re-implemented; this concrete substitution keeps the property the
element relies on: a fixed pattern and an index determine the path,
and distinct indices give distinct paths. -/
def gst_data_repo_src_get_image_filename (pattern : String) (index : Nat) : String :=
  pattern ++ toString index

/-- gst_data_repo_src_read_multi_images: builds the filename from the
pattern and frame_index and attempts g_file_get_contents.  On failure:
GST_FLOW_EOS if successful_read is already set, otherwise the
handle_error path returns GST_FLOW_ERROR.  On success it sets
successful_read, increments frame_index and returns the whole file as
a single-memory buffer.  stop_frame_index is never consulted. -/
def gst_data_repo_src_read_multi_images (fs : World) (s : GstDataRepoSrc) :
    GstFlowReturn × GstDataRepoSrc :=
  let filename :=
    gst_data_repo_src_get_image_filename (s.filename.getD emptyStr) s.frame_index
  match fs filename with
  | some (.regular size) =>
      (.ok [⟨size, size⟩],
        {s with successful_read := true, frame_index := s.frame_index + 1})
  | _ =>
      if s.successful_read then (.eos, s) else (.error, s)

/-- gst_data_repo_src_read_others (video, audio, text, octet): allocates
media_size bytes and runs the while (to_read > 0) read loop into it.
read 0 with byte_read = 0 is the goto eos path; read 0 with byte_read >
0 breaks out and the partially filled memory is appended and returned
with GST_FLOW_OK. -/
def gst_data_repo_src_read_others (fileLen : Nat) (s : GstDataRepoSrc) :
    GstFlowReturn × GstDataRepoSrc :=
  match readLoop fileLen s.offset s.media_size 0 with
  | .eos => (.eos, s)
  | .full off1 =>
      (.ok [⟨s.media_size, s.media_size⟩],
        {s with offset := off1, read_position := s.read_position + (off1 - s.offset)})
  | .cut off1 got1 =>
      (.ok [⟨s.media_size, got1⟩],
        {s with offset := off1, read_position := s.read_position + (off1 - s.offset)})

/-- gst_data_repo_src_create: dispatch on media_type. -/
def gst_data_repo_src_create (fileLen : Nat) (fs : World) (s : GstDataRepoSrc) :
    GstFlowReturn × GstDataRepoSrc :=
  match s.media_type with
  | .tensor => gst_data_repo_src_read_tensors fileLen s
  | .image => gst_data_repo_src_read_multi_images fs s
  | .video => gst_data_repo_src_read_others fileLen s
  | .audio => gst_data_repo_src_read_others fileLen s
  | .text => gst_data_repo_src_read_others fileLen s
  | .octet => gst_data_repo_src_read_others fileLen s

/-- gst_data_repo_src_start.  Returns (result, new state, paths passed to
g_open).  A missing or empty filename takes the no_filename path before
any open.  Otherwise frame_index is set to start_frame_index, the path
to open is the printf-expanded image filename for image media and the
stored filename otherwise.  An open failure leaves fd as the failed
descriptor (open_failed jumps to error_exit, skipping error_close); a
directory, socket or other non-regular file takes error_close (g_close,
fd := 0).  For a regular file read_position is reset and, for image
media, the probe descriptor is closed again before returning TRUE. -/
def gst_data_repo_src_start (fs : World) (s : GstDataRepoSrc) :
    Bool × GstDataRepoSrc × List String :=
  match s.filename with
  | none => (false, s, [])
  | some fn =>
    if fn = emptyStr then (false, s, [])
    else
      let s1 : GstDataRepoSrc := {s with frame_index := s.start_frame_index}
      let name :=
        if s1.media_type = .image then
          gst_data_repo_src_get_image_filename fn s1.frame_index
        else fn
      match fs name with
      | none => (false, {s1 with fd := -1}, [name])
      | some .directory => (false, {s1 with fd := 0}, [name])
      | some .socket => (false, {s1 with fd := 0}, [name])
      | some .other => (false, {s1 with fd := 0}, [name])
      | some (.regular _) =>
          let s2 : GstDataRepoSrc := {s1 with fd := 3, read_position := 0}
          if s2.media_type = .image then (true, {s2 with fd := 0}, [name])
          else (true, s2, [name])

/-- gst_data_repo_src_stop: g_close (src->fd) and fd := 0; nothing else
is touched. -/
def gst_data_repo_src_stop (s : GstDataRepoSrc) : Bool × GstDataRepoSrc :=
  (true, {s with fd := 0})

/-- gst_data_repo_src_set_location: unless the element state is READY or
NULL the wrong_state path returns FALSE without touching the stored
filename; otherwise the old filename is freed and replaced (a NULL
location clears it) and TRUE is returned. -/
def gst_data_repo_src_set_location (st : GstState) (location : Option String)
    (s : GstDataRepoSrc) : Bool × GstDataRepoSrc :=
  if st ≠ GstState.ready ∧ st ≠ GstState.null then (false, s)
  else (true, {s with filename := location})

/-- One tensor component of a negotiated other/tensors descriptor: its
dimension list and the byte width of its element datatype. -/
structure TensorComp where
  dims : List Nat
  width : Nat
  deriving DecidableEq, Repr

/-- gst_tensor_info_get_size: product of the dimensions times the
datatype element width. -/
def gst_tensor_info_get_size (c : TensorComp) : Nat := c.dims.prod * c.width

/-- Maximum number of tensor items per record.  Modelled from the spec:
MAX_ITEM is defined in gstdatareposrc.h, which is not under src/; the
read path of gstdatareposrc.c handles two items (features and labels),
and the spec describes MAX_ITEM as a fixed bound on SegmentSizes. -/
def MAX_ITEM : Nat := 2

/-- FormatResolver failure modes described by the spec. -/
inductive FormatError
  | TooManyComponents
  | Malformed
  deriving DecidableEq, Repr

/-- A component is well formed when it has at least one dimension, no
zero dimension and a positive datatype width. -/
def TensorComp.wellFormed (c : TensorComp) : Bool :=
  !c.dims.isEmpty && !c.dims.contains 0 && c.width != 0

/-- Modelled from the spec: gst_tensors_config_from_structure (declared
in nnstreamer_plugin_api.h; its implementation is not under src/)
parses the negotiated other/tensors descriptor.  Per spec section 4.1
the resolver fails with TooManyComponents when the component count
exceeds MAX_ITEM and with Malformed when shape parsing fails. -/
def gst_tensors_config_from_structure (d : List TensorComp) :
    Except FormatError (List TensorComp) :=
  if MAX_ITEM < d.length then .error .TooManyComponents
  else if d.all TensorComp.wellFormed then .ok d
  else .error .Malformed

/-- The for (i = 0; i < config.info.num_tensors; i++) loop of
gst_data_repo_src_get_tensors_size: tensors_size[i] =
gst_tensor_info_get_size (&config.info.info[i]). -/
def tensors_size_list (infos : List TensorComp) : List Nat :=
  infos.map gst_tensor_info_get_size

/-- gst_data_repo_src_get_tensors_size composed with the (spec-modelled)
config parsing: on success it stores the per-component sizes in
tensors_size and returns their accumulated sum. -/
def resolve_tensors (d : List TensorComp) :
    Except FormatError (List Nat × Nat) :=
  match gst_tensors_config_from_structure d with
  | .error e => .error e
  | .ok cfg => .ok (tensors_size_list cfg, (tensors_size_list cfg).sum)

/-- Total declared size of a tensor descriptor: the sum over its
components of product of dimensions times datatype width. -/
def declaredTotal (d : List TensorComp) : Nat :=
  (d.map gst_tensor_info_get_size).sum

/-- State after k create calls driven by the GstBaseSrc streaming loop. -/
def createStateAfter (fileLen : Nat) (fs : World) (s : GstDataRepoSrc) :
    Nat → GstDataRepoSrc
  | 0 => s
  | k + 1 => (gst_data_repo_src_create fileLen fs (createStateAfter fileLen fs s k)).2

/-- Flow result of the (k+1)-st create call of the streaming loop. -/
def createResultAt (fileLen : Nat) (fs : World) (s : GstDataRepoSrc) (k : Nat) :
    GstFlowReturn :=
  (gst_data_repo_src_create fileLen fs (createStateAfter fileLen fs s k)).1

/-- A filesystem with no entries: every open and g_file_get_contents
fails. -/
def emptyWorld : World := fun _ => none

/-- A session state for a fixed-record media kind: video media with the
given bytes-per-frame record size, as left by set_caps on a fresh
element. -/
def videoState (r : Nat) : GstDataRepoSrc :=
  {gst_data_repo_src_init with media_type := NnsMediaType.video, media_size := r}

/-- A session state for tensor media with the given tensors_size array
contents, as left by set_caps on a fresh element. -/
def tensorState (ts : List Nat) : GstDataRepoSrc :=
  {gst_data_repo_src_init with media_type := NnsMediaType.tensor, tensors_size := ts}

/-- The image filename pattern used by the concrete scenarios. -/
def imgPat : String := "img"

/-- An image-media session state on pattern imgPat with the given
stop_frame_index property value. -/
def imageState (stop : Nat) : GstDataRepoSrc :=
  {gst_data_repo_src_init with
    filename := some imgPat, media_type := NnsMediaType.image,
    stop_frame_index := stop}

/-- A filesystem holding image files imgPat0 .. imgPat10 (indices 0
through 10), each one byte long. -/
def fsEleven : World := fun name =>
  if ((List.range 11).map (gst_data_repo_src_get_image_filename imgPat)).contains name
  then some (FileKind.regular 1) else none

/-- A filesystem holding only the single image file for index 0. -/
def fsOne : World := fun name =>
  if name = gst_data_repo_src_get_image_filename imgPat 0
  then some (FileKind.regular 1) else none

/-- Media kinds served by gst_data_repo_src_read_others. -/
def OthersKind (mt : NnsMediaType) : Prop :=
  mt = NnsMediaType.video ∨ mt = NnsMediaType.audio ∨
    mt = NnsMediaType.text ∨ mt = NnsMediaType.octet

theorem create_others (l : Nat) (fs : World) (s : GstDataRepoSrc)
    (h : OthersKind s.media_type) :
    gst_data_repo_src_create l fs s = gst_data_repo_src_read_others l s := by
  rcases h with h | h | h | h <;> simp [gst_data_repo_src_create, h]

theorem read_others_media (l : Nat) (s : GstDataRepoSrc) :
    ((gst_data_repo_src_read_others l s).2).media_type = s.media_type ∧
    ((gst_data_repo_src_read_others l s).2).media_size = s.media_size := by
  rcases h : readLoop l s.offset s.media_size 0 <;>
    simp [gst_data_repo_src_read_others, h]

theorem read_others_full_spec (l : Nat) (s : GstDataRepoSrc)
    (h : s.offset + s.media_size ≤ l) :
    (gst_data_repo_src_read_others l s).1 = .ok [⟨s.media_size, s.media_size⟩] ∧
    ((gst_data_repo_src_read_others l s).2).offset = s.offset + s.media_size := by
  have h0 := readLoop_full l s.offset s.media_size h
  simp [gst_data_repo_src_read_others, h0]

theorem read_others_cut_spec (l : Nat) (s : GstDataRepoSrc)
    (h1 : s.offset < l) (h2 : l < s.offset + s.media_size) :
    (gst_data_repo_src_read_others l s).1 = .ok [⟨s.media_size, l - s.offset⟩] ∧
    ((gst_data_repo_src_read_others l s).2).offset = l := by
  have h0 := readLoop_cut l s.offset s.media_size h1 h2
  simp [gst_data_repo_src_read_others, h0]

theorem read_others_eos_spec (l : Nat) (s : GstDataRepoSrc)
    (hr : 0 < s.media_size) (h : l ≤ s.offset) :
    gst_data_repo_src_read_others l s = (.eos, s) := by
  have h0 := readLoop_eos l s.offset s.media_size hr h
  simp [gst_data_repo_src_read_others, h0]

theorem others_state_le (l r : Nat) (fs : World) (s : GstDataRepoSrc)
    (hmt : OthersKind s.media_type) (hms : s.media_size = r) (hoff : s.offset = 0) :
    ∀ k, k * r ≤ l →
      OthersKind (createStateAfter l fs s k).media_type ∧
      (createStateAfter l fs s k).media_size = r ∧
      (createStateAfter l fs s k).offset = k * r := by
  intro k
  induction k with
  | zero =>
      intro _
      exact ⟨hmt, hms, by simpa [createStateAfter] using hoff⟩
  | succ k ih =>
      intro hk
      have hmul : k * r + r = (k + 1) * r := by ring
      have hk' : k * r ≤ l := by
        calc k * r ≤ (k + 1) * r := Nat.mul_le_mul_right r (Nat.le_succ k)
        _ ≤ l := hk
      obtain ⟨imt, ims, ioff⟩ := ih hk'
      have hstep : createStateAfter l fs s (k + 1) =
          (gst_data_repo_src_read_others l (createStateAfter l fs s k)).2 := by
        simp [createStateAfter, create_others l fs _ imt]
      have hb : (createStateAfter l fs s k).offset +
          (createStateAfter l fs s k).media_size ≤ l := by
        rw [ioff, ims, hmul]; exact hk
      have hmedia := read_others_media l (createStateAfter l fs s k)
      refine ⟨?_, ?_, ?_⟩
      · rw [hstep, hmedia.1]; exact imt
      · rw [hstep, hmedia.2]; exact ims
      · rw [hstep, (read_others_full_spec l _ hb).2, ioff, ims, hmul]

theorem others_state_past (l r : Nat) (fs : World) (s : GstDataRepoSrc)
    (hr : 0 < r) (hnd : ¬ r ∣ l)
    (hmt : OthersKind s.media_type) (hms : s.media_size = r) (hoff : s.offset = 0) :
    ∀ j, OthersKind (createStateAfter l fs s (l / r + 1 + j)).media_type ∧
      (createStateAfter l fs s (l / r + 1 + j)).media_size = r ∧
      (createStateAfter l fs s (l / r + 1 + j)).offset = l := by
  have hdm : r * (l / r) + l % r = l := Nat.div_add_mod l r
  have hco : l / r * r = r * (l / r) := Nat.mul_comm _ _
  have hmod : l % r ≠ 0 := by
    intro h
    exact hnd (Nat.dvd_iff_mod_eq_zero.2 h)
  have hlt : l % r < r := Nat.mod_lt _ hr
  have hqle : l / r * r ≤ l := Nat.div_mul_le_self l r
  intro j
  induction j with
  | zero =>
      obtain ⟨imt, ims, ioff⟩ := others_state_le l r fs s hmt hms hoff (l / r) hqle
      have hstep : createStateAfter l fs s (l / r + 1) =
          (gst_data_repo_src_read_others l (createStateAfter l fs s (l / r))).2 := by
        simp [createStateAfter, create_others l fs _ imt]
      have h1 : (createStateAfter l fs s (l / r)).offset < l := by
        rw [ioff]; omega
      have h2 : l < (createStateAfter l fs s (l / r)).offset +
          (createStateAfter l fs s (l / r)).media_size := by
        rw [ioff, ims]; omega
      have hmedia := read_others_media l (createStateAfter l fs s (l / r))
      refine ⟨?_, ?_, ?_⟩
      · rw [hstep, hmedia.1]; exact imt
      · rw [hstep, hmedia.2]; exact ims
      · rw [hstep, (read_others_cut_spec l _ h1 h2).2]
  | succ j ih =>
      obtain ⟨imt, ims, ioff⟩ := ih
      have heq : l / r + 1 + (j + 1) = (l / r + 1 + j) + 1 := by ring
      have hsz : 0 < (createStateAfter l fs s (l / r + 1 + j)).media_size := by
        rw [ims]; exact hr
      have hoffs : l ≤ (createStateAfter l fs s (l / r + 1 + j)).offset := by
        rw [ioff]
      have hstep : createStateAfter l fs s (l / r + 1 + (j + 1)) =
          createStateAfter l fs s (l / r + 1 + j) := by
        rw [heq]
        simp [createStateAfter, create_others l fs _ imt,
          read_others_eos_spec l _ hsz hoffs]
      rw [hstep]
      exact ⟨imt, ims, ioff⟩

/-- C1: counterexample.  Video media with a 2-byte record over a 3-byte
file: the claim says the call after the floor(3/2) = 1 full buffer
returns Eos and that a partially filled buffer is never returned; the
code returns GST_FLOW_OK with a buffer whose single memory is
allocated at 2 bytes but holds only the 1 trailing byte. -/
theorem C1_counterexample :
    createResultAt 3 emptyWorld (videoState 2) 1 = .ok [⟨2, 1⟩] ∧
    createResultAt 3 emptyWorld (videoState 2) 1 ≠ .eos := by
  exact ⟨by decide, by decide⟩

/-- C1 (amended): for every non-tensor fixed-size media kind (video,
audio, text, octet), reading a backing file whose length l is not a
multiple of the record size r yields floor(l / r) full buffers, then
one further GST_FLOW_OK buffer whose memory is allocated at r bytes
but filled with only the l mod r trailing bytes, and Eos only from the
following call on; the trailing bytes are returned, not discarded. -/
theorem C1_amended (l r : Nat) (fs : World) (s : GstDataRepoSrc) (k : Nat)
    (hr : 0 < r) (hnd : ¬ r ∣ l)
    (hmt : OthersKind s.media_type) (hms : s.media_size = r) (hoff : s.offset = 0) :
    (k < l / r → createResultAt l fs s k = .ok [⟨r, r⟩]) ∧
    (createResultAt l fs s (l / r) = .ok [⟨r, l % r⟩]) ∧
    (l / r < k → createResultAt l fs s k = .eos) := by
  have hdm : r * (l / r) + l % r = l := Nat.div_add_mod l r
  have hco : l / r * r = r * (l / r) := Nat.mul_comm _ _
  have hmod : l % r ≠ 0 := by
    intro h
    exact hnd (Nat.dvd_iff_mod_eq_zero.2 h)
  have hlt : l % r < r := Nat.mod_lt _ hr
  have hqle : l / r * r ≤ l := Nat.div_mul_le_self l r
  refine ⟨?_, ?_, ?_⟩
  · intro hk
    have hk1 : (k + 1) * r ≤ l := by
      calc (k + 1) * r ≤ l / r * r := Nat.mul_le_mul_right r hk
      _ ≤ l := hqle
    have hkk : k * r ≤ l := by
      calc k * r ≤ (k + 1) * r := Nat.mul_le_mul_right r (Nat.le_succ k)
      _ ≤ l := hk1
    obtain ⟨imt, ims, ioff⟩ := others_state_le l r fs s hmt hms hoff k hkk
    have hb : (createStateAfter l fs s k).offset +
        (createStateAfter l fs s k).media_size ≤ l := by
      rw [ioff, ims]
      calc k * r + r = (k + 1) * r := by ring
      _ ≤ l := hk1
    have hres := (read_others_full_spec l (createStateAfter l fs s k) hb).1
    rw [createResultAt, create_others l fs _ imt, hres, ims]
  · obtain ⟨imt, ims, ioff⟩ := others_state_le l r fs s hmt hms hoff (l / r) hqle
    have h1 : (createStateAfter l fs s (l / r)).offset < l := by
      rw [ioff]; omega
    have h2 : l < (createStateAfter l fs s (l / r)).offset +
        (createStateAfter l fs s (l / r)).media_size := by
      rw [ioff, ims]; omega
    have hres := (read_others_cut_spec l (createStateAfter l fs s (l / r)) h1 h2).1
    have hgot : l - (createStateAfter l fs s (l / r)).offset = l % r := by
      rw [ioff]; omega
    rw [createResultAt, create_others l fs _ imt, hres, ims, hgot]
  · intro hk
    obtain ⟨j, rfl⟩ : ∃ j, k = l / r + 1 + j := ⟨k - (l / r) - 1, by omega⟩
    obtain ⟨imt, ims, ioff⟩ := others_state_past l r fs s hr hnd hmt hms hoff j
    have hsz : 0 < (createStateAfter l fs s (l / r + 1 + j)).media_size := by
      rw [ims]; exact hr
    have hoffs : l ≤ (createStateAfter l fs s (l / r + 1 + j)).offset := by
      rw [ioff]
    rw [createResultAt, create_others l fs _ imt,
      read_others_eos_spec l _ hsz hoffs]

/-- C1 witness: the amended theorem at l = 3, r = 2 over video media:
one full buffer, then the partially filled buffer with the trailing
byte, then Eos. -/
theorem C1_witness :
    createResultAt 3 emptyWorld (videoState 2) 0 = .ok [⟨2, 2⟩] ∧
    createResultAt 3 emptyWorld (videoState 2) 1 = .ok [⟨2, 1⟩] ∧
    createResultAt 3 emptyWorld (videoState 2) 2 = .eos := by
  refine ⟨?_, ?_, ?_⟩
  · exact (C1_amended 3 2 emptyWorld (videoState 2) 0 (by norm_num) (by decide)
      (Or.inl rfl) rfl rfl).1 (by norm_num)
  · have h := (C1_amended 3 2 emptyWorld (videoState 2) 0 (by norm_num) (by decide)
      (Or.inl rfl) rfl rfl).2.1
    norm_num at h
    exact h
  · exact (C1_amended 3 2 emptyWorld (videoState 2) 2 (by norm_num) (by decide)
      (Or.inl rfl) rfl rfl).2.2 (by norm_num)

/-- C2: counterexample.  Tensor record with segment sizes [2, 2] over a
3-byte file: the first segment is read fully, the second can only be
partially filled; the claim says the whole record is abandoned and Eos
signaled, but the code returns GST_FLOW_OK with a two-memory buffer
whose second memory holds only 1 of its 2 bytes. -/
theorem C2_counterexample :
    (gst_data_repo_src_read_tensors 3 (tensorState [2, 2])).1 = .ok [⟨2, 2⟩, ⟨2, 1⟩] ∧
    (gst_data_repo_src_read_tensors 3 (tensorState [2, 2])).1 ≠ .eos := by
  exact ⟨by decide, by decide⟩

/-- C2 (amended): a tensor record is abandoned with Eos only when a
segment read returns 0 bytes having read none for that segment (the
goto eos path); this covers end-of-file at a later segment boundary
and, transitively, a short first segment.  But when the final segment
can be partially filled, the code returns GST_FLOW_OK with the full
first memory and the partially filled final memory — the record is not
abandoned.  Concretely, over a file of l bytes at offset off with
positive segment sizes t0, t1: both segments full when off + t0 + t1
≤ l; full first plus cut second when off + t0 < l < off + t0 + t1;
Eos whenever l ≤ off + t0. -/
theorem C2_amended (l t0 t1 : Nat) (s : GstDataRepoSrc)
    (hts : s.tensors_size = [t0, t1]) (ht0 : 0 < t0) (ht1 : 0 < t1) :
    (s.offset + t0 + t1 ≤ l →
      (gst_data_repo_src_read_tensors l s).1 = .ok [⟨t0, t0⟩, ⟨t1, t1⟩]) ∧
    (s.offset + t0 < l → l < s.offset + t0 + t1 →
      (gst_data_repo_src_read_tensors l s).1 =
        .ok [⟨t0, t0⟩, ⟨t1, l - (s.offset + t0)⟩]) ∧
    (l ≤ s.offset + t0 →
      (gst_data_repo_src_read_tensors l s).1 = .eos) := by
  have g0 : tsAt s 0 = t0 := by rw [tsAt, hts]; rfl
  have g1 : tsAt s 1 = t1 := by rw [tsAt, hts]; rfl
  refine ⟨?_, ?_, ?_⟩
  · intro h
    have h0 : readLoop l s.offset t0 0 = .full (s.offset + t0) :=
      readLoop_full l s.offset t0 (by omega)
    have h1 : readLoop l (s.offset + t0) t1 0 = .full (s.offset + t0 + t1) :=
      readLoop_full l (s.offset + t0) t1 (by omega)
    simp only [gst_data_repo_src_read_tensors, readSecond, g0, g1, h0, h1]
  · intro ha hb
    have h0 : readLoop l s.offset t0 0 = .full (s.offset + t0) :=
      readLoop_full l s.offset t0 (by omega)
    have h1 : readLoop l (s.offset + t0) t1 0 = .cut l (l - (s.offset + t0)) :=
      readLoop_cut l (s.offset + t0) t1 (by omega) (by omega)
    simp only [gst_data_repo_src_read_tensors, readSecond, g0, g1, h0, h1]
  · intro h
    rcases Nat.lt_or_ge s.offset l with hlt | hge
    · rcases Nat.lt_or_ge l (s.offset + t0) with hl | hl
      · have h0 : readLoop l s.offset t0 0 = .cut l (l - s.offset) :=
          readLoop_cut l s.offset t0 hlt hl
        have h1 : readLoop l l t1 0 = .eos := readLoop_eos l l t1 ht1 le_rfl
        simp only [gst_data_repo_src_read_tensors, readSecond, g0, g1, h0, h1]
      · have hEq : l = s.offset + t0 := by omega
        have h0 : readLoop l s.offset t0 0 = .full (s.offset + t0) :=
          readLoop_full l s.offset t0 (by omega)
        have h1 : readLoop l (s.offset + t0) t1 0 = .eos :=
          readLoop_eos l (s.offset + t0) t1 ht1 (by omega)
        simp only [gst_data_repo_src_read_tensors, readSecond, g0, g1, h0, h1]
    · have h0 : readLoop l s.offset t0 0 = .eos :=
        readLoop_eos l s.offset t0 ht0 hge
      simp only [gst_data_repo_src_read_tensors, g0, h0]

/-- C2 witness: the amended theorem at sizes [2, 2].  A 7-byte file
yields a full two-memory record; a 3-byte file yields the
partially-filled-final-segment buffer; a 2-byte file yields Eos. -/
theorem C2_witness :
    (gst_data_repo_src_read_tensors 7 (tensorState [2, 2])).1 = .ok [⟨2, 2⟩, ⟨2, 2⟩] ∧
    (gst_data_repo_src_read_tensors 3 (tensorState [2, 2])).1 = .ok [⟨2, 2⟩, ⟨2, 1⟩] ∧
    (gst_data_repo_src_read_tensors 2 (tensorState [2, 2])).1 = .eos := by
  refine ⟨?_, ?_, ?_⟩
  · exact (C2_amended 7 2 2 (tensorState [2, 2]) rfl (by norm_num) (by norm_num)).1
      (by norm_num [tensorState, gst_data_repo_src_init])
  · have h := (C2_amended 3 2 2 (tensorState [2, 2]) rfl (by norm_num)
      (by norm_num)).2.1 (by norm_num [tensorState, gst_data_repo_src_init])
      (by norm_num [tensorState, gst_data_repo_src_init])
    simpa [tensorState, gst_data_repo_src_init] using h
  · exact (C2_amended 2 2 2 (tensorState [2, 2]) rfl (by norm_num) (by norm_num)).2.2
      (by norm_num [tensorState, gst_data_repo_src_init])

/-- C4: counterexample.  Format resolution of a descriptor with N = 1
component (1 ≤ N ≤ MAX_ITEM) yields the single segment size [5], but a
successful read_tensors call returns a buffer with 2 memory segments
(the loop is hardcoded to i < 2): the second memory is the 0-byte
allocation for the never-written tensors_size[1]. -/
theorem C4_counterexample :
    resolve_tensors [⟨[5], 1⟩] = .ok ([5], 5) ∧
    (tensors_size_list [⟨[5], 1⟩]).length = 1 ∧
    (gst_data_repo_src_read_tensors 10 (tensorState [5])).1 = .ok [⟨5, 5⟩, ⟨0, 0⟩] ∧
    ¬ ([(⟨5, 5⟩ : Segment), ⟨0, 0⟩].length = (tensors_size_list [⟨[5], 1⟩]).length) := by
  refine ⟨rfl, rfl, by decide, by decide⟩

/-- C4 (amended): every read_tensors call either signals Eos or returns
a buffer with exactly two memory segments, allocated at tensors_size[0]
and tensors_size[1] (the for loop is hardcoded to i < 2, pending the
feature/label indexing todo); this matches the resolved component
count N only when N = 2. -/
theorem C4_amended (l : Nat) (s : GstDataRepoSrc) :
    (gst_data_repo_src_read_tensors l s).1 = GstFlowReturn.eos ∨
    ∃ v0 v1, (gst_data_repo_src_read_tensors l s).1 =
      .ok [⟨tsAt s 0, v0⟩, ⟨tsAt s 1, v1⟩] := by
  cases h0 : readLoop l s.offset (tsAt s 0) 0 with
  | eos =>
      left
      simp only [gst_data_repo_src_read_tensors, h0]
  | full off0 =>
      cases h1 : readLoop l off0 (tsAt s 1) 0 with
      | eos =>
          left
          simp only [gst_data_repo_src_read_tensors, readSecond, h0, h1]
      | full off1 =>
          right
          refine ⟨tsAt s 0, tsAt s 1, ?_⟩
          simp only [gst_data_repo_src_read_tensors, readSecond, h0, h1]
      | cut off1 got1 =>
          right
          refine ⟨tsAt s 0, got1, ?_⟩
          simp only [gst_data_repo_src_read_tensors, readSecond, h0, h1]
  | cut off0 got0 =>
      cases h1 : readLoop l off0 (tsAt s 1) 0 with
      | eos =>
          left
          simp only [gst_data_repo_src_read_tensors, readSecond, h0, h1]
      | full off1 =>
          right
          refine ⟨got0, tsAt s 1, ?_⟩
          simp only [gst_data_repo_src_read_tensors, readSecond, h0, h1]
      | cut off1 got1 =>
          right
          refine ⟨got0, got1, ?_⟩
          simp only [gst_data_repo_src_read_tensors, readSecond, h0, h1]

/-- C5: for a tensor descriptor, (spec-modelled) format resolution fails
with TooManyComponents whenever the component count exceeds MAX_ITEM;
for a supported (well-formed) descriptor within the bound it yields
exactly N positive segment sizes whose sum is the total declared
tensor size. -/
theorem C5_resolve (d : List TensorComp) :
    (MAX_ITEM < d.length →
      resolve_tensors d = .error FormatError.TooManyComponents) ∧
    (d.length ≤ MAX_ITEM → (∀ c ∈ d, c.wellFormed = true) →
      resolve_tensors d = .ok (tensors_size_list d, declaredTotal d) ∧
      (tensors_size_list d).length = d.length ∧
      (∀ x ∈ tensors_size_list d, 0 < x) ∧
      (tensors_size_list d).sum = declaredTotal d) := by
  constructor
  · intro h
    simp [resolve_tensors, gst_tensors_config_from_structure, h]
  · intro hlen hwf
    have hall : d.all TensorComp.wellFormed = true := List.all_eq_true.2 hwf
    have hnot : ¬ (MAX_ITEM < d.length) := by omega
    refine ⟨?_, ?_, ?_, ?_⟩
    · simp [resolve_tensors, gst_tensors_config_from_structure, hnot, hall,
        tensors_size_list, declaredTotal]
    · simp [tensors_size_list]
    · intro x hx
      simp only [tensors_size_list, List.mem_map] at hx
      obtain ⟨c, hc, rfl⟩ := hx
      have hw := hwf c hc
      simp only [TensorComp.wellFormed, Bool.and_eq_true] at hw
      obtain ⟨⟨hne, hct⟩, hbw⟩ := hw
      have hnm : (0 : Nat) ∉ c.dims := by simpa using hct
      have hwidth : c.width ≠ 0 := by simpa using hbw
      have hpos : 0 < c.dims.prod := by
        apply List.prod_pos
        intro a ha
        have haz : a ≠ 0 := fun haz => hnm (haz ▸ ha)
        omega
      exact Nat.mul_pos hpos (Nat.pos_of_ne_zero hwidth)
    · simp [tensors_size_list, declaredTotal]

/-- C5 witness: the theorem at the two-component descriptor with shapes
[2, 3] width 4 and [1] width 2: resolution yields the positive sizes
[24, 2] summing to 26. -/
theorem C5_witness :
    resolve_tensors [⟨[2, 3], 4⟩, ⟨[1], 2⟩] = .ok ([24, 2], 26) := by
  have h := ((C5_resolve [⟨[2, 3], 4⟩, ⟨[1], 2⟩]).2 (by decide) (by decide)).1
  exact h

/-- The filename of a misconfigured location that points at a directory. -/
def dirPat : String := "somedir"

/-- A filesystem in which dirPat is a directory and nothing else exists. -/
def fsDir : World := fun name =>
  if name = dirPat then some FileKind.directory else none

/-- C3: counterexample.  Image media with stop_frame_index = 2 and image
files present through index 10: the claim says the 4th read_one call
(frame_index = 3 > 2) returns Eos regardless of file presence; the
code never consults stop_frame_index and returns the 4th image with
GST_FLOW_OK. -/
theorem C3_counterexample :
    createResultAt 0 fsEleven (imageState 2) 3 = .ok [⟨1, 1⟩] ∧
    createResultAt 0 fsEleven (imageState 2) 3 ≠ .eos := by
  exact ⟨by decide, by decide⟩

/-- C3 (amended): gst_data_repo_src_read_multi_images never consults
stop_frame_index — its result and every other state field are
independent of it — so reads keep succeeding while files exist: with
stop_frame_index = 2 and files present through index 10, the first 11
calls return buffers and only the 12th (first missing file) returns
Eos. -/
theorem C3_amended (fs : World) (s : GstDataRepoSrc) (n : Nat) :
    ((gst_data_repo_src_read_multi_images fs {s with stop_frame_index := n}).1 =
      (gst_data_repo_src_read_multi_images fs s).1 ∧
     (gst_data_repo_src_read_multi_images fs {s with stop_frame_index := n}).2 =
      {(gst_data_repo_src_read_multi_images fs s).2 with stop_frame_index := n}) ∧
    (∀ k, k < 11 → createResultAt 0 fsEleven (imageState 2) k = .ok [⟨1, 1⟩]) ∧
    createResultAt 0 fsEleven (imageState 2) 11 = .eos := by
  have key : gst_data_repo_src_read_multi_images fs {s with stop_frame_index := n} =
      ((gst_data_repo_src_read_multi_images fs s).1,
        {(gst_data_repo_src_read_multi_images fs s).2 with stop_frame_index := n}) := by
    unfold gst_data_repo_src_read_multi_images
    cases hf : fs (gst_data_repo_src_get_image_filename
        (s.filename.getD emptyStr) s.frame_index) with
    | none =>
        by_cases hs : s.successful_read <;> simp [hf, hs]
    | some k =>
        cases k with
        | regular sz => simp [hf]
        | directory => by_cases hs : s.successful_read <;> simp [hf, hs]
        | socket => by_cases hs : s.successful_read <;> simp [hf, hs]
        | other => by_cases hs : s.successful_read <;> simp [hf, hs]
  exact ⟨⟨by rw [key], by rw [key]⟩, by decide, by decide⟩

/-- C3 witness: the amended theorem applied at the 6th call of the
concrete scenario (stop_frame_index = 2, files through index 10): the
read still succeeds. -/
theorem C3_witness :
    createResultAt 0 fsEleven (imageState 2) 5 = .ok [⟨1, 1⟩] := by
  exact (C3_amended emptyWorld (imageState 2) 0).2.1 5 (by norm_num)

/-- C6: counterexample.  Session 1 starts on the image pattern and reads
image 0 successfully, then stops.  Session 2 starts successfully (the
file for the start index exists at start time) but the file is gone by
the first read: that very first read attempt of the new session
returns Eos, not IoFailure, because successful_read persists across
stop and start. -/
theorem C6_counterexample :
    (gst_data_repo_src_read_multi_images fsOne
        (gst_data_repo_src_start fsOne (imageState 0)).2.1).1 = .ok [⟨1, 1⟩] ∧
    (gst_data_repo_src_start fsOne
        ((gst_data_repo_src_stop
          (gst_data_repo_src_read_multi_images fsOne
            (gst_data_repo_src_start fsOne (imageState 0)).2.1).2).2)).1 = true ∧
    (gst_data_repo_src_read_multi_images emptyWorld
        (gst_data_repo_src_start fsOne
          ((gst_data_repo_src_stop
            (gst_data_repo_src_read_multi_images fsOne
              (gst_data_repo_src_start fsOne (imageState 0)).2.1).2).2)).2.1).1 =
      GstFlowReturn.eos := by
  exact ⟨by decide, by decide, by decide⟩

/-- C6 (amended): when the file for the current frame_index cannot be
read, read_one returns Eos when at least one image has been read since
the element was initialised (the successful_read flag, which start and
stop never reset) and IoFailure only when no image was ever read; on a
fresh element within its first session this coincides with the claim. -/
theorem C6_amended (fs : World) (s : GstDataRepoSrc)
    (h : ∀ sz, fs (gst_data_repo_src_get_image_filename
        (s.filename.getD emptyStr) s.frame_index) ≠ some (FileKind.regular sz)) :
    (gst_data_repo_src_read_multi_images fs s).1 =
      if s.successful_read then GstFlowReturn.eos else GstFlowReturn.error := by
  unfold gst_data_repo_src_read_multi_images
  cases hf : fs (gst_data_repo_src_get_image_filename
      (s.filename.getD emptyStr) s.frame_index) with
  | none => by_cases hs : s.successful_read <;> simp [hf, hs]
  | some k =>
      cases k with
      | regular sz => exact absurd hf (h sz)
      | directory => by_cases hs : s.successful_read <;> simp [hf, hs]
      | socket => by_cases hs : s.successful_read <;> simp [hf, hs]
      | other => by_cases hs : s.successful_read <;> simp [hf, hs]

/-- C6 witness: the amended theorem on a fresh element (successful_read
still false) over an empty filesystem: the very first failing read is
GST_FLOW_ERROR. -/
theorem C6_witness :
    (gst_data_repo_src_read_multi_images emptyWorld (imageState 5)).1 =
      GstFlowReturn.error := by
  have h := C6_amended emptyWorld (imageState 5)
    (fun sz hsz => by simp [emptyWorld] at hsz)
  simpa [imageState, gst_data_repo_src_init] using h

/-- C7: frame_index is incremented by exactly 1 on every successful
read_multi_images call and unchanged on every Eos or error outcome, so
across a session it is strictly increasing by 1 per success and never
decremented. -/
theorem C7_frame_index (fs : World) (s : GstDataRepoSrc) :
    (∀ buf, (gst_data_repo_src_read_multi_images fs s).1 = .ok buf →
      ((gst_data_repo_src_read_multi_images fs s).2).frame_index =
        s.frame_index + 1) ∧
    ((gst_data_repo_src_read_multi_images fs s).1 = GstFlowReturn.eos ∨
        (gst_data_repo_src_read_multi_images fs s).1 = GstFlowReturn.error →
      ((gst_data_repo_src_read_multi_images fs s).2).frame_index =
        s.frame_index) := by
  unfold gst_data_repo_src_read_multi_images
  cases hf : fs (gst_data_repo_src_get_image_filename
      (s.filename.getD emptyStr) s.frame_index) with
  | none => by_cases hs : s.successful_read <;> simp [hf, hs]
  | some k =>
      cases k with
      | regular sz => simp [hf]
      | directory => by_cases hs : s.successful_read <;> simp [hf, hs]
      | socket => by_cases hs : s.successful_read <;> simp [hf, hs]
      | other => by_cases hs : s.successful_read <;> simp [hf, hs]

/-- C7 witness: the theorem at the concrete one-file scenario: the
successful read moves frame_index from 0 to 1. -/
theorem C7_witness :
    ((gst_data_repo_src_read_multi_images fsOne (imageState 0)).2).frame_index =
      (imageState 0).frame_index + 1 := by
  exact (C7_frame_index fsOne (imageState 0)).1 [⟨1, 1⟩] (by decide)

/-- C8: start with no configured filename (unset or empty) fails via the
no_filename path, passing nothing to g_open and leaving the state
untouched; start on a path that resolves to a directory, a socket or
another non-regular file fails via the error_close path, which closes
the descriptor it opened (fd = 0 in the final state).  start performs
no record read on any path. -/
theorem C8_start (fs : World) (s : GstDataRepoSrc) :
    ((s.filename = none ∨ s.filename = some emptyStr) →
      gst_data_repo_src_start fs s = (false, s, [])) ∧
    (∀ fn k, s.filename = some fn → fn ≠ emptyStr →
      fs (if s.media_type = NnsMediaType.image then
            gst_data_repo_src_get_image_filename fn s.start_frame_index
          else fn) = some k →
      (k = FileKind.directory ∨ k = FileKind.socket ∨ k = FileKind.other) →
      (gst_data_repo_src_start fs s).1 = false ∧
      ((gst_data_repo_src_start fs s).2.1).fd = 0) := by
  constructor
  · rintro (h | h) <;> simp [gst_data_repo_src_start, h]
  · rintro fn k hfn hne hfs (rfl | rfl | rfl) <;>
      simp [gst_data_repo_src_start, hfn, hne, hfs]

/-- C8 witness: a fresh element fails start with nothing opened, and an
element whose location is a directory fails start with the probe
descriptor closed again. -/
theorem C8_witness :
    gst_data_repo_src_start fsDir gst_data_repo_src_init =
      (false, gst_data_repo_src_init, []) ∧
    ((gst_data_repo_src_start fsDir
        {gst_data_repo_src_init with filename := some dirPat}).1 = false ∧
      ((gst_data_repo_src_start fsDir
        {gst_data_repo_src_init with filename := some dirPat}).2.1).fd = 0) := by
  constructor
  · exact (C8_start fsDir gst_data_repo_src_init).1 (Or.inl rfl)
  · exact (C8_start fsDir {gst_data_repo_src_init with filename := some dirPat}).2
      dirPat FileKind.directory rfl (by decide) (by decide) (Or.inl rfl)

/-- C9: changing the location while the element is in a streaming state
(PAUSED or PLAYING, i.e. not the Idle/Closed states NULL and READY)
takes the wrong_state path: it fails and leaves the stored filename
unchanged; in NULL or READY the change succeeds and replaces the
stored filename. -/
theorem C9_set_location (st : GstState) (loc : Option String) (s : GstDataRepoSrc) :
    ((st = GstState.paused ∨ st = GstState.playing) →
      gst_data_repo_src_set_location st loc s = (false, s)) ∧
    ((st = GstState.null ∨ st = GstState.ready) →
      gst_data_repo_src_set_location st loc s = (true, {s with filename := loc})) := by
  constructor <;> rintro (rfl | rfl) <;> simp [gst_data_repo_src_set_location]

/-- C9 witness: the theorem at concrete states: PLAYING rejects the
change and keeps the old filename, READY accepts it. -/
theorem C9_witness :
    gst_data_repo_src_set_location GstState.playing (some dirPat) (imageState 0) =
      (false, imageState 0) ∧
    gst_data_repo_src_set_location GstState.ready (some dirPat) (imageState 0) =
      (true, {imageState 0 with filename := some dirPat}) := by
  exact ⟨(C9_set_location GstState.playing (some dirPat) (imageState 0)).1
      (Or.inr rfl),
    (C9_set_location GstState.ready (some dirPat) (imageState 0)).2 (Or.inr rfl)⟩

/-- C10: successful_read is set on a successful image read and is never
reset by start or stop (only gst_data_repo_src_init clears it), so in
a restarted session whose first image file has become unreadable the
very first read returns Eos, not IoFailure, even though no image was
read in that new session. -/
theorem C10_successful_read (fs : World) (s : GstDataRepoSrc) :
    (∀ buf, (gst_data_repo_src_read_multi_images fs s).1 = .ok buf →
      ((gst_data_repo_src_read_multi_images fs s).2).successful_read = true) ∧
    (s.successful_read = true →
      ((gst_data_repo_src_read_multi_images fs s).2).successful_read = true) ∧
    ((gst_data_repo_src_start fs s).2.1.successful_read = s.successful_read) ∧
    ((gst_data_repo_src_stop s).2.successful_read = s.successful_read) ∧
    gst_data_repo_src_init.successful_read = false ∧
    (gst_data_repo_src_read_multi_images emptyWorld
        (gst_data_repo_src_start fsOne
          ((gst_data_repo_src_stop
            (gst_data_repo_src_read_multi_images fsOne
              (gst_data_repo_src_start fsOne (imageState 0)).2.1).2).2)).2.1).1 =
      GstFlowReturn.eos := by
  refine ⟨?_, ?_, ?_, rfl, rfl, by decide⟩
  · intro buf hbuf
    revert hbuf
    unfold gst_data_repo_src_read_multi_images
    cases hf : fs (gst_data_repo_src_get_image_filename
        (s.filename.getD emptyStr) s.frame_index) with
    | none => by_cases hs : s.successful_read <;> simp [hf, hs]
    | some k =>
        cases k with
        | regular sz => simp [hf]
        | directory => by_cases hs : s.successful_read <;> simp [hf, hs]
        | socket => by_cases hs : s.successful_read <;> simp [hf, hs]
        | other => by_cases hs : s.successful_read <;> simp [hf, hs]
  · intro hs
    unfold gst_data_repo_src_read_multi_images
    cases hf : fs (gst_data_repo_src_get_image_filename
        (s.filename.getD emptyStr) s.frame_index) with
    | none => simp [hf, hs]
    | some k => cases k <;> simp [hf, hs]
  · cases hfn : s.filename with
    | none => simp [gst_data_repo_src_start, hfn]
    | some fn =>
        by_cases he : fn = emptyStr
        · simp [gst_data_repo_src_start, hfn, he]
        · cases hfs : fs (if s.media_type = NnsMediaType.image then
              gst_data_repo_src_get_image_filename fn s.start_frame_index
            else fn) with
          | none => simp [gst_data_repo_src_start, hfn, he, hfs]
          | some k =>
              by_cases hi : s.media_type = NnsMediaType.image
              · rw [if_pos hi] at hfs
                cases k <;> simp [gst_data_repo_src_start, hfn, he, hfs, hi]
              · rw [if_neg hi] at hfs
                cases k <;> simp [gst_data_repo_src_start, hfn, he, hfs, hi]

/-- C10 witness: the flag-monotonicity part of the theorem at a state
with the flag already set and a failing read. -/
theorem C10_witness :
    ((gst_data_repo_src_read_multi_images emptyWorld
        {imageState 0 with successful_read := true}).2).successful_read = true := by
  exact (C10_successful_read emptyWorld
    {imageState 0 with successful_read := true}).2.1 rfl

end DataRepoSrc
